import Mathlib

/-!
Verification development for the DASTCOM5 binary-database reader of
`sbpy` (`sbpy/data/utils/dastcom5.py`).

The reader works over two fixed-layout little-endian binary files (an
asteroid table and a comet table) plus a plain-text name index.  We give a
shallow embedding of the record schemas (`AST_DTYPE`, `COM_DTYPE`), the
header schemas, the record resolver `read_record`, the bulk readers
`asteroid_db` / `comet_db` / `entire_db`, the name search
`string_record_from_name` (together with the fragment of Python regular
expression semantics it relies on), the archive fetch `download_dastcom5`,
and the per-record table builder `orbit_from_record`.

Representation choices:
* a byte is `Fin 256`; files are `List Byte`;
* integer fields decode to their signed value (little-endian two's
  complement, as numpy does for `<i1/<i2/<i4`);
* float fields decode to their IEEE bit pattern as a `Nat`
  (numpy preserves bit patterns when loading and storing a float field,
  so this view is lossless and faithful for byte-level properties);
* fixed-width byte-string fields decode with trailing NUL bytes stripped,
  exactly as numpy presents `|S<w>` values, and re-encode NUL-padded.
-/

namespace Dastcom5

/-- Bytes of the binary files. -/
abbrev Byte := Fin 256

/-- Primitive field types occurring in the numpy dtypes of the module:
little-endian signed integers of 1/2/4 bytes, little-endian IEEE floats
of 4/8 bytes, and fixed-width byte strings. -/
inductive FieldType
  | i8
  | i16
  | i32
  | f32
  | f64
  | str (w : Nat)
deriving DecidableEq

/-- Width in bytes of a field, as declared by the numpy dtype. -/
def FieldType.width : FieldType → Nat
  | .i8 => 1
  | .i16 => 2
  | .i32 => 4
  | .f32 => 4
  | .f64 => 8
  | .str w => w

/-- A schema is the ordered list of named fields of a numpy structured
dtype (packed, no alignment padding, exactly as `np.dtype([...])`). -/
abbrev Schema := List (String × FieldType)

/-- Total byte size of one record of a schema (`dtype.itemsize`). -/
def recordSize (s : Schema) : Nat := (s.map (fun p => p.2.width)).sum

/-- Decoded field values: signed integers, raw IEEE bit patterns for
floats, and byte strings (with trailing NULs stripped, as numpy does). -/
inductive Value
  | int (v : Int)
  | word (bits : Nat)
  | bytes (bs : List Byte)
deriving DecidableEq

/-- Little-endian interpretation of a byte list as a natural number. -/
def leNat : List Byte → Nat
  | [] => 0
  | b :: bs => b.val + 256 * leNat bs

/-- Little-endian encoding of a natural number into `k` bytes. -/
def leBytes : Nat → Nat → List Byte
  | 0, _ => []
  | k + 1, n => ⟨n % 256, by omega⟩ :: leBytes k (n / 256)

/-- Drop the maximal run of trailing NUL bytes (numpy's presentation of a
fixed-width `|S` field value). -/
def stripTrailingNulls : List Byte → List Byte
  | [] => []
  | b :: bs =>
    match stripTrailingNulls bs with
    | [] => if b = 0 then [] else [b]
    | c :: r => b :: c :: r

/-- Pad a byte string with NULs on the right up to width `w` (numpy's
storage of a `|S<w>` field value). -/
def padNulls (w : Nat) (bs : List Byte) : List Byte :=
  bs ++ List.replicate (w - bs.length) 0

/-- Signed little-endian two's-complement decoding of `k` bytes. -/
def decodeInt (k : Nat) (bs : List Byte) : Int :=
  let n := leNat bs
  if n < 2 ^ (8 * k - 1) then (n : Int) else (n : Int) - 2 ^ (8 * k)

/-- Signed little-endian two's-complement encoding into `k` bytes. -/
def encodeInt (k : Nat) (v : Int) : List Byte :=
  leBytes k (v % (2 ^ (8 * k) : Int)).toNat

/-- Decode one field from its byte slice (the slice has exactly the
field's width when the record block is well formed). -/
def decodeField : FieldType → List Byte → Value
  | .i8, bs => .int (decodeInt 1 bs)
  | .i16, bs => .int (decodeInt 2 bs)
  | .i32, bs => .int (decodeInt 4 bs)
  | .f32, bs => .word (leNat bs)
  | .f64, bs => .word (leNat bs)
  | .str _, bs => .bytes (stripTrailingNulls bs)

/-- Re-encode one field value into its byte representation. -/
def encodeField : FieldType → Value → List Byte
  | .i8, .int v => encodeInt 1 v
  | .i16, .int v => encodeInt 2 v
  | .i32, .int v => encodeInt 4 v
  | .f32, .word n => leBytes 4 n
  | .f64, .word n => leBytes 8 n
  | .str w, .bytes bs => padNulls w bs
  | _, _ => []

/-- Decidable equality for `Except`, used to evaluate the embedded
functions on concrete inputs. -/
instance (ε α : Type) [DecidableEq ε] [DecidableEq α] : DecidableEq (Except ε α) :=
  fun a b =>
    match a, b with
    | .ok x, .ok y =>
      if h : x = y then .isTrue (by rw [h]) else .isFalse (by intro hc; cases hc; exact h rfl)
    | .error x, .error y =>
      if h : x = y then .isTrue (by rw [h]) else .isFalse (by intro hc; cases hc; exact h rfl)
    | .ok _, .error _ => .isFalse (by intro hc; cases hc)
    | .error _, .ok _ => .isFalse (by intro hc; cases hc)

/-- A decoded record: named field values in schema order. -/
abbrev Record := List (String × Value)

/-- Decode all fields of a schema from successive slices of a byte block
(the direct struct decode numpy performs for a structured dtype). -/
def decodeFields : Schema → List Byte → Record
  | [], _ => []
  | (n, ty) :: rest, bs =>
    (n, decodeField ty (bs.take ty.width)) :: decodeFields rest (bs.drop ty.width)

/-- Decode one record, as `np.fromfile(f, dtype=s, count=1)` behaves at the
current position: if fewer bytes than one record remain, numpy returns an
empty array (`none` here); otherwise the first `recordSize` bytes are
decoded. -/
def decodeRecord (s : Schema) (bs : List Byte) : Option Record :=
  if bs.length < recordSize s then none else some (decodeFields s bs)

/-- Re-encode a decoded record with the same schema byte layout. -/
def encodeFields : Schema → Record → List Byte
  | [], _ => []
  | _ :: _, [] => []
  | (_, ty) :: rest, (_, v) :: vs => encodeField ty v ++ encodeFields rest vs

/-- Decode as many complete records as fit, as
`np.fromfile(f, dtype=s)` does from the current position to the end of the
file (a trailing partial record is dropped). -/
def decodeAll (s : Schema) (bs : List Byte) : List Record :=
  (List.range (bs.length / recordSize s)).map
    (fun i => decodeFields s (bs.drop (i * recordSize s)))

theorem leNat_lt (bs : List Byte) : leNat bs < 256 ^ bs.length := by
  induction bs with
  | nil => simp [leNat]
  | cons b t ih =>
    have hb := b.isLt
    simp only [leNat, List.length_cons, pow_succ]
    have h256 : 256 * leNat t ≤ 256 * (256 ^ t.length - 1) :=
      Nat.mul_le_mul_left _ (by omega)
    have hpos : 0 < 256 ^ t.length := Nat.pos_pow_of_pos _ (by omega)
    omega

theorem leBytes_leNat (bs : List Byte) : leBytes bs.length (leNat bs) = bs := by
  induction bs with
  | nil => rfl
  | cons b t ih =>
    have hb := b.isLt
    show leBytes (t.length + 1) (b.val + 256 * leNat t) = b :: t
    simp only [leBytes]
    refine congrArg₂ List.cons ?_ ?_
    · apply Fin.ext
      show (b.val + 256 * leNat t) % 256 = b.val
      omega
    · have h2 : (b.val + 256 * leNat t) / 256 = leNat t := by omega
      rw [h2, ih]

theorem strip_pad (bs : List Byte) :
    padNulls bs.length (stripTrailingNulls bs) = bs := by
  induction bs with
  | nil => rfl
  | cons b t ih =>
    simp only [stripTrailingNulls]
    cases h : stripTrailingNulls t with
    | nil =>
      rw [h] at ih
      have ht : List.replicate t.length (0 : Byte) = t := by
        simpa [padNulls] using ih
      by_cases hb : b = (0 : Byte)
      · rw [if_pos hb, hb]
        unfold padNulls
        rw [List.nil_append, List.length_nil, Nat.sub_zero, List.length_cons,
          List.replicate_succ, ht]
      · rw [if_neg hb]
        unfold padNulls
        simp only [List.length_cons, List.cons_append, List.nil_append,
          List.length_nil]
        have harith : t.length + 1 - (0 + 1) = t.length := by omega
        rw [harith, ht]
    | cons c r =>
      rw [h] at ih
      unfold padNulls at ih ⊢
      simp only [List.length_cons, List.cons_append] at ih ⊢
      have harith : t.length + 1 - (r.length + 1 + 1) = t.length - (r.length + 1) := by
        omega
      rw [harith]
      exact congrArg (List.cons b) ih

theorem encodeInt_decodeInt (k : Nat) (bs : List Byte) (h : bs.length = k) :
    encodeInt k (decodeInt k bs) = bs := by
  have hlt : leNat bs < 2 ^ (8 * k) := by
    have := leNat_lt bs
    rw [h] at this
    calc leNat bs < 256 ^ k := this
    _ = 2 ^ (8 * k) := by rw [show (256 : Nat) = 2 ^ 8 from rfl, ← pow_mul]
  unfold decodeInt encodeInt
  by_cases hc : leNat bs < 2 ^ (8 * k - 1)
  · rw [if_pos hc]
    have hmod : ((leNat bs : Int)) % ((2 : Int) ^ (8 * k)) = (leNat bs : Int) := by
      apply Int.emod_eq_of_lt
      · exact Int.natCast_nonneg _
      · exact_mod_cast hlt
    rw [hmod, Int.toNat_natCast, ← h, leBytes_leNat]
  · rw [if_neg hc]
    have hmod : ((leNat bs : Int) - 2 ^ (8 * k)) % ((2 : Int) ^ (8 * k))
        = (leNat bs : Int) := by
      have hrw : (leNat bs : Int) - 2 ^ (8 * k)
          = (leNat bs : Int) + 2 ^ (8 * k) * (-1) := by ring
      rw [hrw, Int.add_mul_emod_self_left]
      apply Int.emod_eq_of_lt
      · exact Int.natCast_nonneg _
      · exact_mod_cast hlt
    rw [hmod, Int.toNat_natCast, ← h, leBytes_leNat]

theorem encodeField_decodeField (ty : FieldType) (bs : List Byte)
    (h : bs.length = ty.width) :
    encodeField ty (decodeField ty bs) = bs := by
  cases ty with
  | i8 => exact encodeInt_decodeInt 1 bs h
  | i16 => exact encodeInt_decodeInt 2 bs h
  | i32 => exact encodeInt_decodeInt 4 bs h
  | f32 =>
    have h4 : bs.length = 4 := h
    show leBytes 4 (leNat bs) = bs
    rw [← h4]
    exact leBytes_leNat bs
  | f64 =>
    have h8 : bs.length = 8 := h
    show leBytes 8 (leNat bs) = bs
    rw [← h8]
    exact leBytes_leNat bs
  | str w =>
    have hw : bs.length = w := h
    show padNulls w (stripTrailingNulls bs) = bs
    rw [← hw]
    exact strip_pad bs

theorem encodeFields_decodeFields (s : Schema) (bs : List Byte)
    (h : bs.length = recordSize s) :
    encodeFields s (decodeFields s bs) = bs := by
  induction s generalizing bs with
  | nil =>
    simp only [recordSize, List.map_nil, List.sum_nil] at h
    simp only [decodeFields, encodeFields]
    exact (List.length_eq_zero.mp h).symm
  | cons f rest ih =>
    obtain ⟨n, ty⟩ := f
    have hsz : recordSize ((n, ty) :: rest) = ty.width + recordSize rest := by
      simp [recordSize]
    rw [hsz] at h
    simp only [decodeFields, encodeFields]
    have htake : (bs.take ty.width).length = ty.width := by
      rw [List.length_take]
      omega
    have hdrop : (bs.drop ty.width).length = recordSize rest := by
      rw [List.length_drop]
      omega
    rw [encodeField_decodeField ty _ htake, ih _ hdrop, List.take_append_drop]

/-- Field list of the asteroid structured dtype `AST_DTYPE`
(`dastcom5.py`, lines 13-133).  Its record size is 835 bytes. -/
def AST_DTYPE : Schema := [
  ("NO", FieldType.i32),
  ("NOBS", FieldType.i32),
  ("OBSFRST", FieldType.i32),
  ("OBSLAST", FieldType.i32),
  ("EPOCH", FieldType.f64),
  ("CALEPO", FieldType.f64),
  ("MA", FieldType.f64),
  ("W", FieldType.f64),
  ("OM", FieldType.f64),
  ("IN", FieldType.f64),
  ("EC", FieldType.f64),
  ("A", FieldType.f64),
  ("QR", FieldType.f64),
  ("TP", FieldType.f64),
  ("TPCAL", FieldType.f64),
  ("TPFRAC", FieldType.f64),
  ("SOLDAT", FieldType.f64),
  ("SRC1", FieldType.f64),
  ("SRC2", FieldType.f64),
  ("SRC3", FieldType.f64),
  ("SRC4", FieldType.f64),
  ("SRC5", FieldType.f64),
  ("SRC6", FieldType.f64),
  ("SRC7", FieldType.f64),
  ("SRC8", FieldType.f64),
  ("SRC9", FieldType.f64),
  ("SRC10", FieldType.f64),
  ("SRC11", FieldType.f64),
  ("SRC12", FieldType.f64),
  ("SRC13", FieldType.f64),
  ("SRC14", FieldType.f64),
  ("SRC15", FieldType.f64),
  ("SRC16", FieldType.f64),
  ("SRC17", FieldType.f64),
  ("SRC18", FieldType.f64),
  ("SRC19", FieldType.f64),
  ("SRC20", FieldType.f64),
  ("SRC21", FieldType.f64),
  ("SRC22", FieldType.f64),
  ("SRC23", FieldType.f64),
  ("SRC24", FieldType.f64),
  ("SRC25", FieldType.f64),
  ("SRC26", FieldType.f64),
  ("SRC27", FieldType.f64),
  ("SRC28", FieldType.f64),
  ("SRC29", FieldType.f64),
  ("SRC30", FieldType.f64),
  ("SRC31", FieldType.f64),
  ("SRC32", FieldType.f64),
  ("SRC33", FieldType.f64),
  ("SRC34", FieldType.f64),
  ("SRC35", FieldType.f64),
  ("SRC36", FieldType.f64),
  ("SRC37", FieldType.f64),
  ("SRC38", FieldType.f64),
  ("SRC39", FieldType.f64),
  ("SRC40", FieldType.f64),
  ("SRC41", FieldType.f64),
  ("SRC42", FieldType.f64),
  ("SRC43", FieldType.f64),
  ("SRC44", FieldType.f64),
  ("SRC45", FieldType.f64),
  ("PRELTV", FieldType.i8),
  ("SPHMX3", FieldType.i8),
  ("SPHMX5", FieldType.i8),
  ("JGSEP", FieldType.i8),
  ("TWOBOD", FieldType.i8),
  ("NSATS", FieldType.i8),
  ("UPARM", FieldType.i8),
  ("LSRC", FieldType.i8),
  ("NDEL", FieldType.i16),
  ("NDOP", FieldType.i16),
  ("H", FieldType.f32),
  ("G", FieldType.f32),
  ("A1", FieldType.f32),
  ("A2", FieldType.f32),
  ("A3", FieldType.f32),
  ("R0", FieldType.f32),
  ("ALN", FieldType.f32),
  ("NM", FieldType.f32),
  ("NN", FieldType.f32),
  ("NK", FieldType.f32),
  ("LGK", FieldType.f32),
  ("RHO", FieldType.f32),
  ("AMRAT", FieldType.f32),
  ("ALF", FieldType.f32),
  ("DEL", FieldType.f32),
  ("SPHLM3", FieldType.f32),
  ("SPHLM5", FieldType.f32),
  ("RP", FieldType.f32),
  ("GM", FieldType.f32),
  ("RAD", FieldType.f32),
  ("EXTNT1", FieldType.f32),
  ("EXTNT2", FieldType.f32),
  ("EXTNT3", FieldType.f32),
  ("MOID", FieldType.f32),
  ("ALBEDO", FieldType.f32),
  ("BVCI", FieldType.f32),
  ("UBCI", FieldType.f32),
  ("IRCI", FieldType.f32),
  ("RMSW", FieldType.f32),
  ("RMSU", FieldType.f32),
  ("RMSN", FieldType.f32),
  ("RMSNT", FieldType.f32),
  ("RMSH", FieldType.f32),
  ("EQUNOX", FieldType.str 4),
  ("PENAM", FieldType.str 6),
  ("SBNAM", FieldType.str 12),
  ("SPTYPT", FieldType.str 5),
  ("SPTYPS", FieldType.str 5),
  ("DARC", FieldType.str 9),
  ("COMNT1", FieldType.str 41),
  ("COMNT2", FieldType.str 80),
  ("DESIG", FieldType.str 13),
  ("ASTEST", FieldType.str 8),
  ("IREF", FieldType.str 10),
  ("ASTNAM", FieldType.str 18)
]

/-- Field list of the comet structured dtype `COM_DTYPE`
(`dastcom5.py`, lines 135-276).  Its record size is 976 bytes. -/
def COM_DTYPE : Schema := [
  ("NO", FieldType.i32),
  ("NOBS", FieldType.i32),
  ("OBSFRST", FieldType.i32),
  ("OBSLAST", FieldType.i32),
  ("EPOCH", FieldType.f64),
  ("CALEPO", FieldType.f64),
  ("MA", FieldType.f64),
  ("W", FieldType.f64),
  ("OM", FieldType.f64),
  ("IN", FieldType.f64),
  ("EC", FieldType.f64),
  ("A", FieldType.f64),
  ("QR", FieldType.f64),
  ("TP", FieldType.f64),
  ("TPCAL", FieldType.f64),
  ("TPFRAC", FieldType.f64),
  ("SOLDAT", FieldType.f64),
  ("SRC1", FieldType.f64),
  ("SRC2", FieldType.f64),
  ("SRC3", FieldType.f64),
  ("SRC4", FieldType.f64),
  ("SRC5", FieldType.f64),
  ("SRC6", FieldType.f64),
  ("SRC7", FieldType.f64),
  ("SRC8", FieldType.f64),
  ("SRC9", FieldType.f64),
  ("SRC10", FieldType.f64),
  ("SRC11", FieldType.f64),
  ("SRC12", FieldType.f64),
  ("SRC13", FieldType.f64),
  ("SRC14", FieldType.f64),
  ("SRC15", FieldType.f64),
  ("SRC16", FieldType.f64),
  ("SRC17", FieldType.f64),
  ("SRC18", FieldType.f64),
  ("SRC19", FieldType.f64),
  ("SRC20", FieldType.f64),
  ("SRC21", FieldType.f64),
  ("SRC22", FieldType.f64),
  ("SRC23", FieldType.f64),
  ("SRC24", FieldType.f64),
  ("SRC25", FieldType.f64),
  ("SRC26", FieldType.f64),
  ("SRC27", FieldType.f64),
  ("SRC28", FieldType.f64),
  ("SRC29", FieldType.f64),
  ("SRC30", FieldType.f64),
  ("SRC31", FieldType.f64),
  ("SRC32", FieldType.f64),
  ("SRC33", FieldType.f64),
  ("SRC34", FieldType.f64),
  ("SRC35", FieldType.f64),
  ("SRC36", FieldType.f64),
  ("SRC37", FieldType.f64),
  ("SRC38", FieldType.f64),
  ("SRC39", FieldType.f64),
  ("SRC40", FieldType.f64),
  ("SRC41", FieldType.f64),
  ("SRC42", FieldType.f64),
  ("SRC43", FieldType.f64),
  ("SRC44", FieldType.f64),
  ("SRC45", FieldType.f64),
  ("SRC46", FieldType.f64),
  ("SRC47", FieldType.f64),
  ("SRC48", FieldType.f64),
  ("SRC49", FieldType.f64),
  ("SRC50", FieldType.f64),
  ("SRC51", FieldType.f64),
  ("SRC52", FieldType.f64),
  ("SRC53", FieldType.f64),
  ("SRC54", FieldType.f64),
  ("SRC55", FieldType.f64),
  ("PRELTV", FieldType.i8),
  ("SPHMX3", FieldType.i8),
  ("SPHMX5", FieldType.i8),
  ("JGSEP", FieldType.i8),
  ("TWOBOD", FieldType.i8),
  ("NSATS", FieldType.i8),
  ("UPARM", FieldType.i8),
  ("LSRC", FieldType.i8),
  ("IPYR", FieldType.i16),
  ("NDEL", FieldType.i16),
  ("NDOP", FieldType.i16),
  ("NOBSMT", FieldType.i16),
  ("NOBSMN", FieldType.i16),
  ("H", FieldType.f32),
  ("G", FieldType.f32),
  ("M1 (MT)", FieldType.f32),
  ("M2 (MN)", FieldType.f32),
  ("K1 (MTSMT)", FieldType.f32),
  ("K2 (MNSMT)", FieldType.f32),
  ("PHCOF (MNP)", FieldType.f32),
  ("A1", FieldType.f32),
  ("A2", FieldType.f32),
  ("A3", FieldType.f32),
  ("DT", FieldType.f32),
  ("R0", FieldType.f32),
  ("ALN", FieldType.f32),
  ("NM", FieldType.f32),
  ("NN", FieldType.f32),
  ("NK", FieldType.f32),
  ("S0", FieldType.f32),
  ("TCL", FieldType.f32),
  ("RHO", FieldType.f32),
  ("AMRAT", FieldType.f32),
  ("AJ1", FieldType.f32),
  ("AJ2", FieldType.f32),
  ("ET1", FieldType.f32),
  ("ET2", FieldType.f32),
  ("DTH", FieldType.f32),
  ("ALF", FieldType.f32),
  ("DEL", FieldType.f32),
  ("SPHLM3", FieldType.f32),
  ("SPHLM5", FieldType.f32),
  ("RP", FieldType.f32),
  ("GM", FieldType.f32),
  ("RAD", FieldType.f32),
  ("EXTNT1", FieldType.f32),
  ("EXTNT2", FieldType.f32),
  ("EXTNT3", FieldType.f32),
  ("MOID", FieldType.f32),
  ("ALBEDO", FieldType.f32),
  ("RMSW", FieldType.f32),
  ("RMSU", FieldType.f32),
  ("RMSN", FieldType.f32),
  ("RMSNT", FieldType.f32),
  ("RMSMT", FieldType.f32),
  ("RMSMN", FieldType.f32),
  ("EQUNOX", FieldType.str 4),
  ("PENAM", FieldType.str 6),
  ("SBNAM", FieldType.str 12),
  ("DARC", FieldType.str 9),
  ("COMNT3", FieldType.str 49),
  ("COMNT2", FieldType.str 80),
  ("DESIG", FieldType.str 13),
  ("COMEST", FieldType.str 14),
  ("IREF", FieldType.str 10),
  ("COMNAM", FieldType.str 29)
]

/-- Field list of the asteroid-file header dtype declared inside
`read_headers` (lines 460-475). -/
def AST_HEADER_DTYPE : Schema := [
  ("IBIAS1", FieldType.i32),
  ("BEGINP1", FieldType.str 8),
  ("BEGINP2", FieldType.str 8),
  ("BEGINP3", FieldType.str 8),
  ("ENDPT1", FieldType.str 8),
  ("ENDPT2", FieldType.str 8),
  ("ENDPT3", FieldType.str 8),
  ("CALDATE", FieldType.str 19),
  ("JDDATE", FieldType.f64),
  ("FTYP", FieldType.str 1),
  ("BYTE2A", FieldType.i16),
  ("IBIAS0", FieldType.i32)
]

/-- Field list of the comet-file header dtype declared inside
`read_headers` (lines 481-495). -/
def COM_HEADER_DTYPE : Schema := [
  ("IBIAS2", FieldType.i32),
  ("BEGINP1", FieldType.str 8),
  ("BEGINP2", FieldType.str 8),
  ("BEGINP3", FieldType.str 8),
  ("ENDPT1", FieldType.str 8),
  ("ENDPT2", FieldType.str 8),
  ("ENDPT3", FieldType.str 8),
  ("CALDATE", FieldType.str 19),
  ("JDDATE", FieldType.f64),
  ("FTYP", FieldType.str 1),
  ("BYTE2C", FieldType.i16)
]

/-- Embedding of `read_headers` (lines 447-500): one
`np.fromfile(f, dtype=..., count=1)` at offset 0 of each binary file.
When a file holds fewer bytes than the header dtype requires, numpy
returns an empty array and raises nothing, so the embedding yields
`none` for that file. -/
def read_headers (astFile comFile : List Byte) : Option Record × Option Record :=
  (decodeRecord AST_HEADER_DTYPE astFile, decodeRecord COM_HEADER_DTYPE comFile)

/-- Errors surfaced by the embedded reader.  Python file objects raise
when asked to seek to a negative offset; that is the only exception the
source's read path can produce. -/
inductive ReadErr
  | negativeSeek
deriving DecidableEq

/-- Model of the pair `f.seek(phis_rec); np.fromfile(f, dtype=s, count=1)`
used by `read_record`: seeking to a negative offset raises; seeking at or
past end-of-file succeeds, and a read with fewer than `recordSize s`
bytes left returns an empty array (`none`), not an error. -/
def seekRead (s : Schema) (file : List Byte) (off : Int) :
    Except ReadErr (Option Record) :=
  if off < 0 then .error .negativeSeek
  else .ok (decodeRecord s (file.drop off.toNat))

/-- Embedding of `read_record` (lines 503-538).  The arguments `endpt1`
and `endpt2` stand for the parsed header markers
`int(ast_header["ENDPT1"][0].item())` and
`int(ast_header["ENDPT2"][0].item())`; `ibias0` and `ibias1` for the
asteroid-header biases `IBIAS0` and `IBIAS1`; `ibias2` for the
comet-header bias `IBIAS2`. -/
def read_record (astFile comFile : List Byte)
    (endpt1 endpt2 ibias0 ibias1 ibias2 record : Int) :
    Except ReadErr (Option Record) :=
  if record ≤ endpt2 then
    if record ≤ endpt1 then
      seekRead AST_DTYPE astFile (835 * (record - ibias0 - 1))
    else
      seekRead AST_DTYPE astFile (835 * (record - ibias1 - 1))
  else
    seekRead COM_DTYPE comFile (976 * (record - ibias2 - 1))

/-- Byte count skipped over the asteroid file's header by `asteroid_db`
(`f.seek(835, os.SEEK_SET)`, line 296). -/
def AST_HEADER_OFFSET : Nat := 835

/-- Byte count skipped over the comet file's header by `comet_db`
(`f.seek(976, os.SEEK_SET)`, line 311). -/
def COM_HEADER_OFFSET : Nat := 976

/-- Embedding of `asteroid_db` (lines 286-298): skip the header, then
`np.fromfile(f, dtype=AST_DTYPE)` decodes every complete record. -/
def asteroid_db (file : List Byte) : List Record :=
  decodeAll AST_DTYPE (file.drop AST_HEADER_OFFSET)

/-- Embedding of `comet_db` (lines 301-313). -/
def comet_db (file : List Byte) : List Record :=
  decodeAll COM_DTYPE (file.drop COM_HEADER_OFFSET)

/-- Python slice selection performed by `entire_db` on each database's
field-name list: `names[:17] + names[-4:-3] + names[-2:]`
(lines 595-608). -/
def entireDbSelect (names : List String) : List String :=
  names.take 17
    ++ (names.drop (names.length - 4)).take 1
    ++ names.drop (names.length - 2)

/-- Field names `entire_db` keeps from the asteroid database. -/
def entireDbAstNames : List String := entireDbSelect (AST_DTYPE.map (fun p => p.1))

/-- Field names `entire_db` keeps from the comet database. -/
def entireDbComNames : List String := entireDbSelect (COM_DTYPE.map (fun p => p.1))

/-- Multi-field selection `database[names]` on one decoded record: the
named fields are kept, in the requested order. -/
def selectCols (names : List String) (rec : Record) : List (String × Option Value) :=
  names.map (fun n => (n, (rec.find? (fun p => p.1 = n)).map (fun p => p.2)))

/-- The column-sliced asteroid table `ast_database` computed inside
`entire_db` (lines 595-601).  It is an intermediate value: the `vstack`
call that follows raises, see `entire_db`. -/
def entire_db_ast (file : List Byte) : List (List (String × Option Value)) :=
  (asteroid_db file).map (selectCols entireDbAstNames)

/-- The column-sliced comet table `com_database` computed inside
`entire_db` (lines 602-608).  It is an intermediate value: the `vstack`
call that follows raises, see `entire_db`. -/
def entire_db_com (file : List Byte) : List (List (String × Option Value)) :=
  (comet_db file).map (selectCols entireDbComNames)

/-- The second positional argument of an astropy `vstack` call: astropy
expects the `join_type` string in that position, but `entire_db` passes
a `Table` there. -/
inductive PyArg
  | str (s : String)
  | table (rows : List (List (String × Option Value)))

/-- Modelled from astropy's `vstack(tables, join_type="outer", ...)`,
restricted to the shape of the call in `entire_db`: the first argument
is a single table and the second positional argument lands in
`join_type`.  astropy first validates that `join_type` is one of the
strings "inner", "exact" or "outer" and raises `ValueError` for anything
else - in particular for a `Table`; with a single input table and a
valid join type it returns that table. -/
def vstack (table : List (List (String × Option Value))) (joinArg : PyArg) :
    Except Unit (List (List (String × Option Value))) :=
  match joinArg with
  | PyArg.str s =>
    if s = "inner" ∨ s = "exact" ∨ s = "outer" then Except.ok table
    else Except.error ()
  | PyArg.table _ => Except.error ()

/-- Embedding of `entire_db` (lines 580-610): slice both databases down
to the orbital-data columns, then call
`vstack(ast_database, com_database)` - which passes the sliced comet
table where astropy expects the `join_type` argument, so the call raises
`ValueError` and no merged view is ever returned. -/
def entire_db (astFile comFile : List Byte) :
    Except Unit (List (List (String × Option Value))) :=
  let ast_database := entire_db_ast astFile
  let com_database := entire_db_com comFile
  vstack ast_database (PyArg.table com_database)

/-! ### Name search (`string_record_from_name`, lines 421-444)

The source builds the pattern `r"\b" + name.casefold() + r"\b"` and runs
`re.search` against each casefolded index line.  We model the fragment of
Python regular-expression semantics this exercises: literal characters,
the `.` wildcard, and the `\b` word-boundary anchor.  Any other
metacharacter in the query is outside the modelled fragment and is
reported as a compile failure; in particular a lone `(` or `)` raises
`re.error` in Python as well.  The theorems below only evaluate the model
on queries inside this fragment (all-literal queries, a `.` query, a
lone `(`), where it is faithful to `re`.  `casefold` is modelled as
ASCII lowercasing, which matches Python on the ASCII index data. -/

/-- Word characters of the regex `\b` semantics (`\w`), ASCII fragment:
letters, digits and the underscore. -/
def isWordChar (c : Char) : Bool := c.isAlphanum || c = '_'

/-- Python regex metacharacters (ASCII).  The two brace characters are
written via their code points. -/
def isMeta (c : Char) : Bool :=
  c = '.' || c = '^' || c = '$' || c = '*' || c = '+' || c = '?' ||
  c = '[' || c = ']' || c = '(' || c = ')' || c = '|' || c = '\\' ||
  c = Char.ofNat 123 || c = Char.ofNat 125

/-- Tokens of the modelled regex fragment: a literal character, the `.`
wildcard, and the `\b` word-boundary anchor. -/
inductive RTok
  | lit (c : Char)
  | dot
  | wb
deriving DecidableEq

/-- Parse the query text inserted between the two `\b` anchors.  A `.`
becomes the wildcard; any other metacharacter is outside the modelled
fragment (for a lone `(` or `)` Python itself raises `re.error`). -/
def pyParseChars : List Char → Option (List RTok)
  | [] => some []
  | c :: rest =>
    if c = '.' then (pyParseChars rest).map (fun ts => RTok.dot :: ts)
    else if isMeta c then none
    else (pyParseChars rest).map (fun ts => RTok.lit c :: ts)

/-- Whether the first character of a suffix is a word character (`false`
at end of line). -/
def headIsWord : List Char → Bool
  | [] => false
  | c :: _ => isWordChar c

/-- Match a token list at the start of `cs`; `prevW` records whether the
character immediately before the current position is a word character
(`false` at line start).  `\b` matches where exactly one side is a word
character; `.` matches any character except a newline. -/
def matchToks : List RTok → Bool → List Char → Bool
  | [], _, _ => true
  | RTok.wb :: ts, prevW, cs => (prevW != headIsWord cs) && matchToks ts prevW cs
  | RTok.dot :: _, _, [] => false
  | RTok.dot :: ts, _, c :: cs => (c != Char.ofNat 10) && matchToks ts (isWordChar c) cs
  | RTok.lit _ :: _, _, [] => false
  | RTok.lit a :: ts, _, c :: cs => (a == c) && matchToks ts (isWordChar c) cs

/-- Try to match at the current position, then at every later start
position (the semantics of `re.search`). -/
def searchFrom (ts : List RTok) : Bool → List Char → Bool
  | prevW, [] => matchToks ts prevW []
  | prevW, c :: cs => matchToks ts prevW (c :: cs) || searchFrom ts (isWordChar c) cs

/-- Semantics of `re.search(pattern, line)`: some start position
matches. -/
def reSearch (ts : List RTok) (s : List Char) : Bool := searchFrom ts false s

/-- Model of `str.casefold()` on the ASCII index data: lowercase the
characters. -/
def casefoldChars (s : String) : List Char := s.toList.map Char.toLower

/-- Compile the pattern `r"\b" + name.casefold() + r"\b"` built at line
442. -/
def compiledPattern (name : String) : Option (List RTok) :=
  (pyParseChars (casefoldChars name)).map
    (fun ts => RTok.wb :: (ts ++ [RTok.wb]))

/-- Embedding of `string_record_from_name` (lines 421-444) over the index
file's lines: every line on which `re.search` fires is kept, in file
order.  When the pattern does not compile, Python raises `re.error` at
the first `re.search` call, hence an error for any non-empty line list
and an empty result for an empty file. -/
def string_record_from_name (name : String) (lines : List String) :
    Except Unit (List String) :=
  match lines with
  | [] => Except.ok []
  | l :: ls =>
    match compiledPattern name with
    | none => Except.error ()
    | some ts =>
      Except.ok ((l :: ls).filter (fun line => reSearch ts (casefoldChars line)))

/-- Modelled from the spec: "case-insensitive whole-word substring match
(word boundary on both sides) against each index line".  `isPrefixRest q s`
returns the rest of `s` when the (casefolded) query `q` occurs at the
head of `s`. -/
def isPrefixRest : List Char → List Char → Option (List Char)
  | [], s => some s
  | _ :: _, [] => none
  | a :: q, c :: s => if a = c then isPrefixRest q s else none

/-- Wordness of the character adjacent on the left of the position just
after `q` (the last character of `q`, or the character before `q` when
`q` is empty). -/
def lastWordness (q : List Char) (prevW : Bool) : Bool :=
  match q.getLast? with
  | some c => isWordChar c
  | none => prevW

/-- Word boundary between a position whose left neighbour has wordness
`prevW` and the suffix `next`. -/
def boundaryB (prevW : Bool) (next : List Char) : Bool :=
  prevW != headIsWord next

/-- Modelled from the spec: the query occurs at the head of `s` as a
whole word - a word boundary on both sides. -/
def wholeWordAt (q : List Char) (prevW : Bool) (s : List Char) : Bool :=
  match isPrefixRest q s with
  | some rest => boundaryB prevW s && boundaryB (lastWordness q prevW) rest
  | none => false

/-- Modelled from the spec: the query occurs somewhere in the line as a
case-insensitive whole word. -/
def wholeWordSearch (q : List Char) : Bool → List Char → Bool
  | prevW, [] => wholeWordAt q prevW []
  | prevW, c :: cs => wholeWordAt q prevW (c :: cs) || wholeWordSearch q (isWordChar c) cs

/-- Spec-side matching policy: case-insensitive whole-word substring
match of the query against a line. -/
def wholeWordMatch (query line : String) : Bool :=
  wholeWordSearch (casefoldChars query) false (casefoldChars line)

/-! ### Archive fetch (`download_dastcom5`, lines 541-571) -/

/-- Abstract state of the local archive directory layout. -/
structure DirState where
  dastcom5DirExists : Bool
  sbpyDirExists : Bool
  zipPresent : Bool
deriving DecidableEq

/-- Failure raised by the fetch: the source raises `FileExistsError` when
the archive directory already exists and no update was requested - the
spec's `NotFoundError`-class failure for this scenario. -/
inductive FetchErr
  | fileExists
deriving DecidableEq

/-- Embedding of `download_dastcom5` (lines 541-571) as a transformer on
the abstract file-system state, paired with the raised error if any.
`zipPresent` models `zipfile.is_zipfile(dastcom5_zip_path)`; the
download creates the zip (and `~/.sbpy` first when missing),
`extractall` creates the dastcom5 directory, and `os.remove` deletes the
zip.  On the error path the state is returned unchanged: the existence
check precedes every write. -/
def download_dastcom5 (fs : DirState) (update : Bool) : DirState × Option FetchErr :=
  if fs.dastcom5DirExists && !update then
    (fs, some FetchErr.fileExists)
  else
    let fs1 := if fs.dastcom5DirExists && update then
        { fs with dastcom5DirExists := false }
      else fs
    let fs2 := if !fs1.zipPresent then
        let fsm := if !fs1.sbpyDirExists then { fs1 with sbpyDirExists := true } else fs1
        { fsm with zipPresent := true }
      else fs1
    let fs3 := { fs2 with dastcom5DirExists := true }
    ({ fs3 with zipPresent := false }, none)

/-! ### Per-record orbit table (`orbit_from_record`, lines 366-394) -/

/-- Cells of the built table: the field-name strings of the first row,
the integer record number, orbital-element values looked up in the
decoded record, and the epoch wrapped into an astropy `Time`. -/
inductive Cell
  | str (s : String)
  | int (v : Int)
  | val (v : Option Value)
  | time (v : Option Value)
deriving DecidableEq

/-- Lookup `body_data["X"].item()` on a decoded record. -/
def fieldVal (rec : Record) (n : String) : Option Value :=
  (rec.find? (fun p => p.1 = n)).map (fun p => p.2)

/-- Model of an astropy `Table`: column labels plus rows of cells. -/
structure PyTable where
  colnames : List String
  rows : List (List Cell)
deriving DecidableEq

/-- Column labels astropy assigns to a `Table` built from `rows=` with no
`names=` argument: `col0`, `col1`, ... -/
def defaultColnames (k : Nat) : List String :=
  (List.range k).map (fun i => "col" ++ toString i)

/-- Embedding of `orbit_from_record` (lines 366-394) applied to the
decoded record `body`: extract the orbital elements, wrap the epoch into
a `Time`, and build `Table(rows=[column1, column2])` - the first row is
the list of field-name strings, the second the values, and the columns
get the default labels. -/
def orbit_from_record (record : Int) (body : Record) : PyTable :=
  let a := fieldVal body "A"
  let ecc := fieldVal body "EC"
  let inc := fieldVal body "IN"
  let raan := fieldVal body "OM"
  let argp := fieldVal body "W"
  let m := fieldVal body "MA"
  let epoch := Cell.time (fieldVal body "EPOCH")
  let column2 := [Cell.int record, Cell.val a, Cell.val ecc, Cell.val inc,
    Cell.val raan, Cell.val argp, Cell.val m, epoch]
  let column1 := [Cell.str "record", Cell.str "a", Cell.str "ecc", Cell.str "inc",
    Cell.str "raan", Cell.str "argp", Cell.str "m", Cell.str "EPOCH"]
  PyTable.mk (defaultColnames 8) [column1, column2]

/-! ### Equivalence of the compiled pattern with whole-word matching,
for queries made of literal characters only -/

/-- Helper: the boundary condition checked after the query has been
consumed. -/
def tailBoundaryMatch (q : List Char) (prevW : Bool) (s : List Char) : Bool :=
  match isPrefixRest q s with
  | some rest => boundaryB (lastWordness q prevW) rest
  | none => false

theorem lastWordness_cons (a : Char) (q : List Char) (prevW : Bool) :
    lastWordness (a :: q) prevW = lastWordness q (isWordChar a) := by
  cases q with
  | nil => rfl
  | cons b t =>
    unfold lastWordness
    rw [List.getLast?_cons_cons]
    cases h : (b :: t).getLast? with
    | none =>
      exact absurd h (by simp)
    | some c =>
      rfl

theorem pyParseChars_lits (cs : List Char) (h : ∀ c ∈ cs, isMeta c = false) :
    pyParseChars cs = some (cs.map RTok.lit) := by
  induction cs with
  | nil => rfl
  | cons c rest ih =>
    have hc : isMeta c = false := h c (List.mem_cons_self c rest)
    have hdot : c ≠ '.' := by
      intro hd
      rw [hd] at hc
      exact absurd hc (by decide)
    have hrest := ih (fun d hd => h d (List.mem_cons_of_mem c hd))
    simp only [pyParseChars, if_neg hdot, hc, if_false, hrest, Option.map_some,
      List.map_cons]
    rfl

theorem tailBoundaryMatch_cons (a c : Char) (t : List Char) (prevW : Bool)
    (cs : List Char) :
    tailBoundaryMatch (a :: t) prevW (c :: cs)
      = if a = c then tailBoundaryMatch t (isWordChar a) cs else false := by
  by_cases hac : a = c
  · rw [if_pos hac]
    have hpre : isPrefixRest (a :: t) (c :: cs) = isPrefixRest t cs := by
      show (if a = c then isPrefixRest t cs else none) = isPrefixRest t cs
      rw [if_pos hac]
    unfold tailBoundaryMatch
    rw [hpre, lastWordness_cons]
  · rw [if_neg hac]
    have hpre : isPrefixRest (a :: t) (c :: cs) = none := by
      show (if a = c then isPrefixRest t cs else none) = none
      rw [if_neg hac]
    unfold tailBoundaryMatch
    rw [hpre]

theorem matchToks_lits (q : List Char) (prevW : Bool) (s : List Char) :
    matchToks (q.map RTok.lit ++ [RTok.wb]) prevW s = tailBoundaryMatch q prevW s := by
  induction q generalizing prevW s with
  | nil =>
    show ((prevW != headIsWord s) && matchToks [] prevW s) = tailBoundaryMatch [] prevW s
    rw [show matchToks [] prevW s = true from rfl, Bool.and_true]
    rfl
  | cons a t ih =>
    cases s with
    | nil => rfl
    | cons c cs =>
      show ((a == c) && matchToks (t.map RTok.lit ++ [RTok.wb]) (isWordChar c) cs)
          = tailBoundaryMatch (a :: t) prevW (c :: cs)
      rw [tailBoundaryMatch_cons, ih]
      by_cases hac : a = c
      · rw [if_pos hac]
        have hbeq : (a == c) = true := beq_iff_eq.mpr hac
        rw [hbeq, Bool.true_and, hac]
      · rw [if_neg hac]
        have hbeq : (a == c) = false := beq_eq_false_iff_ne.mpr hac
        rw [hbeq, Bool.false_and]

theorem matchToks_pattern (q : List Char) (prevW : Bool) (s : List Char) :
    matchToks (RTok.wb :: (q.map RTok.lit ++ [RTok.wb])) prevW s
      = wholeWordAt q prevW s := by
  show ((prevW != headIsWord s) && matchToks (q.map RTok.lit ++ [RTok.wb]) prevW s)
      = wholeWordAt q prevW s
  rw [matchToks_lits]
  cases h : isPrefixRest q s with
  | none => simp only [wholeWordAt, tailBoundaryMatch, h, Bool.and_false]
  | some rest => simp only [wholeWordAt, tailBoundaryMatch, h, boundaryB]

theorem searchFrom_wholeWord (q : List Char) (prevW : Bool) (s : List Char) :
    searchFrom (RTok.wb :: (q.map RTok.lit ++ [RTok.wb])) prevW s
      = wholeWordSearch q prevW s := by
  induction s generalizing prevW with
  | nil =>
    show matchToks (RTok.wb :: (q.map RTok.lit ++ [RTok.wb])) prevW []
        = wholeWordSearch q prevW []
    rw [matchToks_pattern]
    rfl
  | cons c cs ih =>
    show (matchToks (RTok.wb :: (q.map RTok.lit ++ [RTok.wb])) prevW (c :: cs)
          || searchFrom (RTok.wb :: (q.map RTok.lit ++ [RTok.wb])) (isWordChar c) cs)
        = wholeWordSearch q prevW (c :: cs)
    rw [matchToks_pattern, ih]
    rfl

/-! ### Shared helper lemmas for the claim theorems -/

set_option maxRecDepth 10000 in
theorem recordSize_AST : recordSize AST_DTYPE = 835 := by decide

set_option maxRecDepth 10000 in
theorem recordSize_COM : recordSize COM_DTYPE = 976 := by decide

set_option maxRecDepth 10000 in
theorem entireDbAstNames_eq :
    entireDbAstNames = ["NO", "NOBS", "OBSFRST", "OBSLAST", "EPOCH", "CALEPO",
      "MA", "W", "OM", "IN", "EC", "A", "QR", "TP", "TPCAL", "TPFRAC",
      "SOLDAT", "DESIG", "IREF", "ASTNAM"] := by decide

set_option maxRecDepth 10000 in
theorem entireDbComNames_eq :
    entireDbComNames = ["NO", "NOBS", "OBSFRST", "OBSLAST", "EPOCH", "CALEPO",
      "MA", "W", "OM", "IN", "EC", "A", "QR", "TP", "TPCAL", "TPFRAC",
      "SOLDAT", "DESIG", "IREF", "COMNAM"] := by decide

/-- Row `i` of a bulk decode that skipped one record-sized header is the
record decoded at offset `recordSize s * (i + 1)`, and a single-record
decode at that offset succeeds, provided the file holds at least `i + 2`
record slots. -/
theorem bulk_rows (s : Schema) (file : List Byte) (i : Nat)
    (hpos : 0 < recordSize s)
    (hlen : recordSize s * (i + 2) ≤ file.length) :
    (decodeAll s (file.drop (recordSize s)))[i]?
        = some (decodeFields s (file.drop (recordSize s * (i + 1)))) ∧
    decodeRecord s (file.drop (recordSize s * (i + 1)))
        = some (decodeFields s (file.drop (recordSize s * (i + 1)))) := by
  have hdlen : (file.drop (recordSize s)).length = file.length - recordSize s :=
    List.length_drop _ _
  have hcount : i + 1 ≤ (file.length - recordSize s) / recordSize s := by
    rw [Nat.le_div_iff_mul_le hpos]
    have hsplit : recordSize s * (i + 2) = (i + 1) * recordSize s + recordSize s := by
      ring
    omega
  constructor
  · unfold decodeAll
    rw [hdlen, List.getElem?_map, List.getElem?_range (by omega : i < (file.length - recordSize s) / recordSize s)]
    rw [Option.map_some']
    rw [List.drop_drop]
    have harith : recordSize s + i * recordSize s = recordSize s * (i + 1) := by
      ring
    rw [harith]
  · unfold decodeRecord
    have hwide : ¬((file.drop (recordSize s * (i + 1))).length < recordSize s) := by
      rw [List.length_drop]
      have hsplit : recordSize s * (i + 2) = recordSize s * (i + 1) + recordSize s := by
        ring
      omega
    rw [if_neg hwide]

/-! ## Claim theorems -/

/-- C7: for every well-formed byte block of the correct record size,
decoding it under the selected schema (`AST_DTYPE` or `COM_DTYPE`)
succeeds, and re-encoding the decoded field values with the same schema
byte layout reproduces the original bytes exactly - no field
interpretation is lossy. -/
theorem c7_decode_encode_roundtrip (s : Schema) (bs : List Byte)
    (hs : s = AST_DTYPE ∨ s = COM_DTYPE) (hlen : bs.length = recordSize s) :
    decodeRecord s bs = some (decodeFields s bs) ∧
    encodeFields s (decodeFields s bs) = bs := by
  constructor
  · unfold decodeRecord
    rw [if_neg (by omega)]
  · exact encodeFields_decodeFields s bs hlen

set_option maxRecDepth 10000 in
/-- Witness for C7 at an all-zero 835-byte asteroid record block. -/
theorem c7_decode_encode_roundtrip_witness :
    decodeRecord AST_DTYPE (List.replicate 835 (0 : Byte))
        = some (decodeFields AST_DTYPE (List.replicate 835 (0 : Byte))) ∧
    encodeFields AST_DTYPE (decodeFields AST_DTYPE (List.replicate 835 (0 : Byte)))
        = List.replicate 835 (0 : Byte) :=
  c7_decode_encode_roundtrip AST_DTYPE (List.replicate 835 (0 : Byte))
    (Or.inl rfl) (by decide)

set_option maxRecDepth 10000 in
/-- C3 counterexample: the asteroid record size declared by `AST_DTYPE`
is 835 bytes, not 144. -/
theorem c3_record_size_not_144 :
    recordSize AST_DTYPE = 835 ∧ (recordSize AST_DTYPE == 144) = false := by
  decide

set_option maxRecDepth 10000 in
/-- C3 amended: the asteroid schema has an invariant field list whose
record size is exactly 835 bytes - the same 835 that `read_record`
multiplies by as the asteroid stride and that `asteroid_db` skips as the
header length - and likewise 976 bytes for the comet schema. -/
theorem c3_record_size_835 :
    recordSize AST_DTYPE = 835 ∧ AST_HEADER_OFFSET = recordSize AST_DTYPE ∧
    recordSize COM_DTYPE = 976 ∧ COM_HEADER_OFFSET = recordSize COM_DTYPE := by
  decide

/-- C1: the record resolver's trichotomy, under the header invariant
`ENDPT1 ≤ ENDPT2`: a positive record number `r1 ≤ ENDPT1` reads the
asteroid file at offset `835 * (r1 - IBIAS0 - 1)`; `ENDPT1 < r2 ≤ ENDPT2`
reads the asteroid file at `835 * (r2 - IBIAS1 - 1)`; `ENDPT2 < r3` reads
the comet file at `976 * (r3 - IBIAS2 - 1)`.  In particular `ENDPT1`
itself takes the numbered branch and, when `ENDPT1 < ENDPT2`,
`ENDPT1 + 1` takes the unnumbered branch. -/
theorem c1_resolver_trichotomy (astFile comFile : List Byte)
    (e1 e2 b0 b1 b2 r1 r2 r3 : Int)
    (hmono : e1 ≤ e2) (h1p : 0 < r1) (h2p : 0 < r2) (h3p : 0 < r3)
    (hr1 : r1 ≤ e1) (hr2a : e1 < r2) (hr2b : r2 ≤ e2) (hr3 : e2 < r3) :
    read_record astFile comFile e1 e2 b0 b1 b2 r1
        = seekRead AST_DTYPE astFile (835 * (r1 - b0 - 1)) ∧
    read_record astFile comFile e1 e2 b0 b1 b2 r2
        = seekRead AST_DTYPE astFile (835 * (r2 - b1 - 1)) ∧
    read_record astFile comFile e1 e2 b0 b1 b2 r3
        = seekRead COM_DTYPE comFile (976 * (r3 - b2 - 1)) ∧
    read_record astFile comFile e1 e2 b0 b1 b2 e1
        = seekRead AST_DTYPE astFile (835 * (e1 - b0 - 1)) ∧
    (e1 < e2 → read_record astFile comFile e1 e2 b0 b1 b2 (e1 + 1)
        = seekRead AST_DTYPE astFile (835 * (e1 + 1 - b1 - 1))) := by
  refine ⟨?_, ?_, ?_, ?_, ?_⟩
  · have hc : r1 ≤ e2 := le_trans hr1 hmono
    simp [read_record, hc, hr1]
  · have hni : ¬r2 ≤ e1 := not_le.mpr hr2a
    simp [read_record, hr2b, hni]
  · have hno : ¬r3 ≤ e2 := not_le.mpr hr3
    simp [read_record, hno]
  · simp [read_record, hmono, le_refl]
  · intro hlt
    have ho : e1 + 1 ≤ e2 := by omega
    have hni : ¬e1 + 1 ≤ e1 := by omega
    simp [read_record, ho, hni]

/-- Witness for C1 at the header `ENDPT1 = 2`, `ENDPT2 = 4`, biases 0,
and record numbers 1, 3, 5. -/
theorem c1_resolver_trichotomy_witness :
    read_record [] [] 2 4 0 0 0 1 = seekRead AST_DTYPE [] (835 * (1 - 0 - 1)) ∧
    read_record [] [] 2 4 0 0 0 3 = seekRead AST_DTYPE [] (835 * (3 - 0 - 1)) ∧
    read_record [] [] 2 4 0 0 0 5 = seekRead COM_DTYPE [] (976 * (5 - 0 - 1)) ∧
    read_record [] [] 2 4 0 0 0 2 = seekRead AST_DTYPE [] (835 * (2 - 0 - 1)) ∧
    ((2 : Int) < 4 → read_record [] [] 2 4 0 0 0 (2 + 1)
        = seekRead AST_DTYPE [] (835 * (2 + 1 - 0 - 1))) :=
  c1_resolver_trichotomy [] [] 2 4 0 0 0 1 3 5 (by decide) (by decide) (by decide)
    (by decide) (by decide) (by decide) (by decide) (by decide)

set_option maxRecDepth 100000 in
/-- C2: evaluating the embedded `read_record` at a record number whose
offset lies past the end of the asteroid file (`ENDPT1 = 5`,
`ENDPT2 = 9`, biases 0, an 835-byte asteroid file, record 3, offset
1670): the unchecked `np.fromfile` read returns an empty array, and no
out-of-range error is raised. -/
theorem c2_out_of_range_read_is_silent :
    read_record (List.replicate 835 (0 : Byte)) (List.replicate 976 (0 : Byte))
      5 9 0 0 0 3 = Except.ok none := by
  decide

set_option maxRecDepth 10000 in
/-- C6: evaluating the embedded `read_headers` on files shorter than the
header dtypes (10 bytes each, against header sizes 86 and 82 bytes):
numpy returns empty header arrays, and no truncation error is raised. -/
theorem c6_truncated_header_is_silent :
    read_headers (List.replicate 10 (0 : Byte)) (List.replicate 10 (0 : Byte))
      = (none, none) := by
  decide

set_option maxRecDepth 10000 in
/-- C4 counterexample: the query is interpreted as a regular-expression
pattern, so the query "a.c" matches the line "an abc here" although
"a.c" does not occur in that line as a literal case-insensitive whole
word. -/
theorem c4_counterexample_regex_query :
    string_record_from_name "a.c" ["an abc here"] = Except.ok ["an abc here"] ∧
    wholeWordMatch "a.c" "an abc here" = false := by
  decide

/-- C4 amended: for every non-empty query free of regular-expression
metacharacters, the name search returns exactly the index lines on which
the query occurs as a case-insensitive whole word (a word boundary on
both sides), in file order - every matching line is returned. -/
theorem c4_whole_word_search (name : String) (lines : List String)
    (hne : name ≠ "")
    (hlit : ∀ c ∈ casefoldChars name, isMeta c = false) :
    string_record_from_name name lines
      = Except.ok (lines.filter (fun l => wholeWordMatch name l)) := by
  have hpat : compiledPattern name
      = some (RTok.wb :: ((casefoldChars name).map RTok.lit ++ [RTok.wb])) := by
    unfold compiledPattern
    rw [pyParseChars_lits _ hlit]
    rfl
  cases lines with
  | nil => rfl
  | cons l ls =>
    show (match compiledPattern name with
      | none => Except.error ()
      | some ts =>
        Except.ok ((l :: ls).filter (fun line => reSearch ts (casefoldChars line))))
      = Except.ok ((l :: ls).filter (fun line => wholeWordMatch name line))
    rw [hpat]
    have hfil : ∀ line ∈ l :: ls,
        reSearch (RTok.wb :: ((casefoldChars name).map RTok.lit ++ [RTok.wb]))
          (casefoldChars line) = wholeWordMatch name line := by
      intro line _
      exact searchFrom_wholeWord (casefoldChars name) false (casefoldChars line)
    show Except.ok ((l :: ls).filter (fun line =>
        reSearch (RTok.wb :: ((casefoldChars name).map RTok.lit ++ [RTok.wb]))
          (casefoldChars line)))
      = Except.ok ((l :: ls).filter (fun line => wholeWordMatch name line))
    rw [List.filter_congr hfil]

set_option maxRecDepth 10000 in
/-- Witness for C4 at the query "Eros" over three index lines: the line
containing "Eros" as a whole word is returned, the "Aeros" and "Erosion"
lines are not. -/
theorem c4_whole_word_search_witness :
    string_record_from_name "Eros"
        ["   433 Eros (A898 PA)", "    12 Aeros", "Erosion here"]
      = Except.ok ((["   433 Eros (A898 PA)", "    12 Aeros", "Erosion here"]).filter
          (fun l => wholeWordMatch "Eros" l)) :=
  c4_whole_word_search "Eros"
    ["   433 Eros (A898 PA)", "    12 Aeros", "Erosion here"]
    (by decide) (by decide)

set_option maxRecDepth 10000 in
/-- C9: the query string really is passed to `re.search` as a pattern: a
lone "(" is a regex compile error, so the search raises instead of
returning a list; and the metacharacter query "a.c" matches a line that
contains no literal whole-word occurrence of "a.c". -/
theorem c9_query_is_regex :
    string_record_from_name "(" ["   433 Eros (A898 PA)"] = Except.error () ∧
    string_record_from_name "a.c" ["xy abc z"] = Except.ok ["xy abc z"] ∧
    wholeWordMatch "a.c" "xy abc z" = false := by
  decide

/-- C8: when the archive directory already exists and the caller did not
request an update, `download_dastcom5` raises `FileExistsError` (the
spec's `NotFoundError`-class failure for this scenario) and the
file-system state is returned unchanged - no write happens before the
error. -/
theorem c8_existing_archive_no_update (fs : DirState)
    (h : fs.dastcom5DirExists = true) :
    download_dastcom5 fs false = (fs, some FetchErr.fileExists) := by
  simp [download_dastcom5, h]

/-- Witness for C8 at a state where only the archive directory exists. -/
theorem c8_existing_archive_no_update_witness :
    download_dastcom5 (DirState.mk true false false) false
      = (DirState.mk true false false, some FetchErr.fileExists) :=
  c8_existing_archive_no_update (DirState.mk true false false) rfl

/-- C10: for every record number and decoded record, the orbit table has
exactly two rows of eight cells - the first row holds the literal field
name strings as data values, the second the corresponding values - and
the table's column labels are astropy's defaults `col0`..`col7`, not the
field names. -/
theorem c10_orbit_table_shape (record : Int) (body : Record) :
    (orbit_from_record record body).rows
        = [[Cell.str "record", Cell.str "a", Cell.str "ecc", Cell.str "inc",
            Cell.str "raan", Cell.str "argp", Cell.str "m", Cell.str "EPOCH"],
           [Cell.int record, Cell.val (fieldVal body "A"),
            Cell.val (fieldVal body "EC"), Cell.val (fieldVal body "IN"),
            Cell.val (fieldVal body "OM"), Cell.val (fieldVal body "W"),
            Cell.val (fieldVal body "MA"), Cell.time (fieldVal body "EPOCH")]] ∧
    ((orbit_from_record record body).rows.map List.length) = [8, 8] ∧
    (orbit_from_record record body).colnames
        = ["col0", "col1", "col2", "col3", "col4", "col5", "col6", "col7"] ∧
    ((orbit_from_record record body).colnames.contains "record") = false := by
  refine ⟨rfl, rfl, ?_, ?_⟩
  · show defaultColnames 8
        = ["col0", "col1", "col2", "col3", "col4", "col5", "col6", "col7"]
    decide
  · show ((defaultColnames 8).contains "record") = false
    decide

set_option maxRecDepth 10000 in
/-- C5 counterexample: the merged bulk view keeps neither the absolute
magnitude field "H" nor the "MOID" field of either schema, and
`entire_db` itself raises from its `vstack` call (evaluated here at
empty files) - it returns no merged view at all. -/
theorem c5_counterexample_fields :
    (entireDbAstNames.contains "H") = false ∧
    (entireDbAstNames.contains "MOID") = false ∧
    (entireDbComNames.contains "H") = false ∧
    (entireDbComNames.contains "MOID") = false ∧
    entire_db [] [] = Except.error () := by
  decide

/-- C5 amended: `entire_db` slices each database down to the record id
and the 16 further orbital-data fields `NOBS` .. `SOLDAT` (the leading
17 fields), plus `DESIG`, `IREF` and the class-specific name field
(`ASTNAM` / `COMNAM`) - not the absolute magnitude or MOID; its final
concatenation passes the sliced comet table where astropy expects the
`join_type` argument, so `entire_db` raises and returns no merged view;
and for every in-range record - numbered asteroid, unnumbered asteroid,
or comet - the corresponding row of the column-sliced tables that feed
the concatenation equals the column slice of the very record that
`read_record` returns for that record number. -/
theorem c5_merged_view_rows (astFile comFile : List Byte)
    (e1 e2 b0 b1 b2 ra ru rc : Int) (ia iu ic : Nat)
    (hra : ra = (ia : Int) + b0 + 2) (hr1 : ra ≤ e1) (hmono : e1 ≤ e2)
    (hla : 835 * (ia + 2) ≤ astFile.length)
    (hru : ru = (iu : Int) + b1 + 2) (hr2a : e1 < ru) (hr2b : ru ≤ e2)
    (hlu : 835 * (iu + 2) ≤ astFile.length)
    (hrc : rc = (ic : Int) + b2 + 2) (hr3 : e2 < rc)
    (hlc : 976 * (ic + 2) ≤ comFile.length) :
    entireDbAstNames = ["NO", "NOBS", "OBSFRST", "OBSLAST", "EPOCH", "CALEPO",
        "MA", "W", "OM", "IN", "EC", "A", "QR", "TP", "TPCAL", "TPFRAC",
        "SOLDAT", "DESIG", "IREF", "ASTNAM"] ∧
    entireDbComNames = ["NO", "NOBS", "OBSFRST", "OBSLAST", "EPOCH", "CALEPO",
        "MA", "W", "OM", "IN", "EC", "A", "QR", "TP", "TPCAL", "TPFRAC",
        "SOLDAT", "DESIG", "IREF", "COMNAM"] ∧
    entire_db astFile comFile = Except.error () ∧
    (∃ rec, read_record astFile comFile e1 e2 b0 b1 b2 ra = Except.ok (some rec) ∧
      (entire_db_ast astFile)[ia]? = some (selectCols entireDbAstNames rec)) ∧
    (∃ rec, read_record astFile comFile e1 e2 b0 b1 b2 ru = Except.ok (some rec) ∧
      (entire_db_ast astFile)[iu]? = some (selectCols entireDbAstNames rec)) ∧
    (∃ rec, read_record astFile comFile e1 e2 b0 b1 b2 rc = Except.ok (some rec) ∧
      (entire_db_com comFile)[ic]? = some (selectCols entireDbComNames rec)) := by
  have hast := recordSize_AST
  have hcom := recordSize_COM
  refine ⟨entireDbAstNames_eq, entireDbComNames_eq, rfl, ?_, ?_, ?_⟩
  · have hb := bulk_rows AST_DTYPE astFile ia (by omega)
      (by rw [hast]; exact hla)
    rw [hast] at hb
    refine ⟨decodeFields AST_DTYPE (astFile.drop (835 * (ia + 1))), ?_, ?_⟩
    · have hle2 : ra ≤ e2 := le_trans hr1 hmono
      unfold read_record
      rw [if_pos hle2, if_pos hr1]
      unfold seekRead
      have hoff : 835 * (ra - b0 - 1) = ((835 * (ia + 1) : Nat) : Int) := by
        rw [hra]
        push_cast
        ring
      rw [hoff, if_neg (by omega), Int.toNat_natCast, hb.2]
    · unfold entire_db_ast asteroid_db
      have hoffs : AST_HEADER_OFFSET = recordSize AST_DTYPE := by
        rw [hast]
        rfl
      rw [hoffs, hast] at *
      rw [List.getElem?_map]
      rw [show (decodeAll AST_DTYPE (astFile.drop 835))[ia]?
          = some (decodeFields AST_DTYPE (astFile.drop (835 * (ia + 1))))
          from hb.1]
      rfl
  · have hb := bulk_rows AST_DTYPE astFile iu (by omega)
      (by rw [hast]; exact hlu)
    rw [hast] at hb
    refine ⟨decodeFields AST_DTYPE (astFile.drop (835 * (iu + 1))), ?_, ?_⟩
    · have hni : ¬ru ≤ e1 := not_le.mpr hr2a
      unfold read_record
      rw [if_pos hr2b, if_neg hni]
      unfold seekRead
      have hoff : 835 * (ru - b1 - 1) = ((835 * (iu + 1) : Nat) : Int) := by
        rw [hru]
        push_cast
        ring
      rw [hoff, if_neg (by omega), Int.toNat_natCast, hb.2]
    · unfold entire_db_ast asteroid_db
      have hoffs : AST_HEADER_OFFSET = recordSize AST_DTYPE := by
        rw [hast]
        rfl
      rw [hoffs, hast] at *
      rw [List.getElem?_map]
      rw [show (decodeAll AST_DTYPE (astFile.drop 835))[iu]?
          = some (decodeFields AST_DTYPE (astFile.drop (835 * (iu + 1))))
          from hb.1]
      rfl
  · have hb := bulk_rows COM_DTYPE comFile ic (by omega)
      (by rw [hcom]; exact hlc)
    rw [hcom] at hb
    refine ⟨decodeFields COM_DTYPE (comFile.drop (976 * (ic + 1))), ?_, ?_⟩
    · have hno : ¬rc ≤ e2 := not_le.mpr hr3
      unfold read_record
      rw [if_neg hno]
      unfold seekRead
      have hoff : 976 * (rc - b2 - 1) = ((976 * (ic + 1) : Nat) : Int) := by
        rw [hrc]
        push_cast
        ring
      rw [hoff, if_neg (by omega), Int.toNat_natCast, hb.2]
    · unfold entire_db_com comet_db
      have hoffs : COM_HEADER_OFFSET = recordSize COM_DTYPE := by
        rw [hcom]
        rfl
      rw [hoffs, hcom] at *
      rw [List.getElem?_map]
      rw [show (decodeAll COM_DTYPE (comFile.drop 976))[ic]?
          = some (decodeFields COM_DTYPE (comFile.drop (976 * (ic + 1))))
          from hb.1]
      rfl

set_option maxRecDepth 100000 in
/-- Witness for C5 at concrete three-slot asteroid and two-slot comet
files, `ENDPT1 = 2`, `ENDPT2 = 3`, `IBIAS0 = IBIAS1 = 0`, `IBIAS2 = 2`:
numbered asteroid record 2 (row 0), unnumbered asteroid record 3
(row 1) and comet record 4 (row 0). -/
theorem c5_merged_view_rows_witness :
    entireDbAstNames = ["NO", "NOBS", "OBSFRST", "OBSLAST", "EPOCH", "CALEPO",
        "MA", "W", "OM", "IN", "EC", "A", "QR", "TP", "TPCAL", "TPFRAC",
        "SOLDAT", "DESIG", "IREF", "ASTNAM"] ∧
    entireDbComNames = ["NO", "NOBS", "OBSFRST", "OBSLAST", "EPOCH", "CALEPO",
        "MA", "W", "OM", "IN", "EC", "A", "QR", "TP", "TPCAL", "TPFRAC",
        "SOLDAT", "DESIG", "IREF", "COMNAM"] ∧
    entire_db (List.replicate 2505 (0 : Byte)) (List.replicate 1952 (0 : Byte))
      = Except.error () ∧
    (∃ rec, read_record (List.replicate 2505 (0 : Byte)) (List.replicate 1952 (0 : Byte))
        2 3 0 0 2 2 = Except.ok (some rec) ∧
      (entire_db_ast (List.replicate 2505 (0 : Byte)))[0]?
        = some (selectCols entireDbAstNames rec)) ∧
    (∃ rec, read_record (List.replicate 2505 (0 : Byte)) (List.replicate 1952 (0 : Byte))
        2 3 0 0 2 3 = Except.ok (some rec) ∧
      (entire_db_ast (List.replicate 2505 (0 : Byte)))[1]?
        = some (selectCols entireDbAstNames rec)) ∧
    (∃ rec, read_record (List.replicate 2505 (0 : Byte)) (List.replicate 1952 (0 : Byte))
        2 3 0 0 2 4 = Except.ok (some rec) ∧
      (entire_db_com (List.replicate 1952 (0 : Byte)))[0]?
        = some (selectCols entireDbComNames rec)) :=
  c5_merged_view_rows (List.replicate 2505 (0 : Byte)) (List.replicate 1952 (0 : Byte))
    2 3 0 0 2 2 3 4 0 1 0 (by decide) (by decide) (by decide)
    (by simp) (by decide) (by decide) (by decide)
    (by simp) (by decide) (by decide)
    (by simp)

end Dastcom5
